import Mathlib

/-
Verification of the memory-agent core (src/memory_agent): relevance
evaluation (core/evaluation), the tiered in-memory store
(infrastructure/storage/memory_store.py, manager.py) and the
self-correction loop (core/correction/self_corrector.py).

Modelling conventions:
- Python floats are modelled as rationals; the code only adds, multiplies,
  divides and compares scores, so ordering behaviour is preserved.
- The Decision enum is modelled with exactly the members its source
  declares (core/interfaces/evaluator.py lines 21-27: retain, discard,
  reevaluate, compress); the evaluation and correction code instead
  accesses Decision.REMOVE / Decision.KEEP / Decision.REVIEW, and a
  Python enum raises AttributeError for a missing member, so every such
  access is modelled as an attribute lookup that raises.
- Python exceptions are modelled with an explicit error type; a function
  that can raise returns Except, and an error value carries the state as
  mutated up to the raise point, matching Python semantics where
  mutations before an exception persist.
- datetime values are modelled as abstract ticks (a natural number
  supplied by the caller for utcnow); log statements, statistics counters
  and gzip/json byte-level encoding are elided, as no claim observes them.
-/

namespace MemoryAgent

/-- Python exceptions observed by the modelled code paths. -/
inductive PyErr where
  | attributeError (attr : String)
  | nameError (name : String)
  | validationError (msg : String)
  | typeError (msg : String)
  | zeroDivisionError
  | keyError
  | stopIteration
  | recursionError
  | providerError (msg : String)
deriving DecidableEq, Repr

/-- The Decision enum exactly as core/interfaces/evaluator.py lines 21-27
declares it: retain, discard, reevaluate, compress.  It has no KEEP,
REVIEW or REMOVE members, although the evaluation and correction code
accesses those names. -/
inductive Decision where
  | retain
  | discard
  | reevaluate
  | compress
deriving DecidableEq, Repr

/-- The declared member names of the Decision enum, as Python attribute
names. -/
def decisionEnumMembers : List String :=
  ["RETAIN", "DISCARD", "REEVALUATE", "COMPRESS"]

/-- Python attribute access Decision.NAME: a declared member evaluates to
its value, any other name raises AttributeError. -/
def decisionMember : String → Except PyErr Decision
  | "RETAIN" => .ok .retain
  | "DISCARD" => .ok .discard
  | "REEVALUATE" => .ok .reevaluate
  | "COMPRESS" => .ok .compress
  | name => .error (.attributeError name)

/-- The five factor scores of core/interfaces/evaluator.py RelevanceFactors. -/
structure RelevanceFactors where
  semantic_alignment : ℚ
  temporal_relevance : ℚ
  goal_contribution : ℚ
  information_quality : ℚ
  factual_consistency : ℚ
deriving DecidableEq, Repr

/-- RelevanceScore from core/interfaces/evaluator.py (confidence,
evaluated_at and evaluator_version elided: defaulted and unread). -/
structure RelevanceScore where
  overall_score : ℚ
  factors : RelevanceFactors
  decision : Decision
  explanation : String
deriving DecidableEq, Repr

/-- BaseRelevanceEvaluator._make_decision (core/evaluation/base.py lines
192-225): hard overrides on factual_consistency and semantic_alignment,
then the keep / review / remove thresholds (metadata defaults 0.7 and
0.4).  Each return statement evaluates Decision.REMOVE, Decision.KEEP or
Decision.REVIEW — none of which the enum declares — so whichever branch
is reached raises AttributeError naming that member: the function never
returns a decision. -/
def makeDecision (keep_threshold review_threshold : ℚ)
    (overall_score : ℚ) (factors : RelevanceFactors) : Except PyErr Decision :=
  if factors.factual_consistency < 3/10 then decisionMember "REMOVE"
  else if factors.semantic_alignment < 2/10 then decisionMember "REMOVE"
  else if overall_score ≥ keep_threshold then decisionMember "KEEP"
  else if overall_score ≥ review_threshold then decisionMember "REVIEW"
  else decisionMember "REMOVE"

/-- The five constructor weights of BaseRelevanceEvaluator.__init__
(defaults 0.3 / 0.2 / 0.25 / 0.15 / 0.1). -/
structure FactorWeights where
  semantic_weight : ℚ
  temporal_weight : ℚ
  goal_weight : ℚ
  information_weight : ℚ
  factual_weight : ℚ
deriving DecidableEq, Repr

/-- total_weight as computed in BaseRelevanceEvaluator.__init__. -/
def FactorWeights.total (w : FactorWeights) : ℚ :=
  w.semantic_weight + w.temporal_weight + w.goal_weight +
    w.information_weight + w.factual_weight

/-- The default constructor weights of BaseRelevanceEvaluator. -/
def defaultWeights : FactorWeights :=
  { semantic_weight := 3/10, temporal_weight := 2/10, goal_weight := 25/100,
    information_weight := 15/100, factual_weight := 1/10 }

/-- Weight normalization in BaseRelevanceEvaluator.__init__ (base.py lines
39-54): each weight is divided by total_weight.  When the total is zero
Python raises ZeroDivisionError at the first division. -/
def normalizeWeights (w : FactorWeights) : Except PyErr FactorWeights :=
  if w.total = 0 then .error .zeroDivisionError
  else .ok
    { semantic_weight := w.semantic_weight / w.total,
      temporal_weight := w.temporal_weight / w.total,
      goal_weight := w.goal_weight / w.total,
      information_weight := w.information_weight / w.total,
      factual_weight := w.factual_weight / w.total }

/-- The weighted overall score of BaseRelevanceEvaluator.evaluate (base.py
lines 167-170): the sum over the weights dictionary of factor times
weight. -/
def overallScore (w : FactorWeights) (f : RelevanceFactors) : ℚ :=
  f.semantic_alignment * w.semantic_weight +
    f.temporal_relevance * w.temporal_weight +
    f.goal_contribution * w.goal_weight +
    f.information_quality * w.information_weight +
    f.factual_consistency * w.factual_weight

/-- BaseRelevanceEvaluator.evaluate (base.py lines 146-190): the five
factor evaluations are abstract inputs; the weighted overall score is
computed, then _make_decision is called — which raises on every path —
so evaluate never constructs a RelevanceScore.  The unreachable ok
branch carries an empty explanation placeholder (_generate_explanation
is dead code behind the raise). -/
def evaluateBase (keep_threshold review_threshold : ℚ) (w : FactorWeights)
    (factors : RelevanceFactors) : Except PyErr RelevanceScore :=
  match makeDecision keep_threshold review_threshold (overallScore w factors) factors with
  | .error e => .error e
  | .ok d => .ok { overall_score := overallScore w factors, factors := factors,
                   decision := d, explanation := "" }

/-- CompositeRelevanceEvaluator._combine_scores (composite_evaluator.py
lines 123-178): the combined overall score and factors are computed
first (pure arithmetic); then line 160 evaluates Decision.REMOVE — a
missing member — so every call raises AttributeError("REMOVE") before
any decision is merged.  The later REVIEW / KEEP lookups and the
explanation string (numeric formatting elided) are modelled but dead. -/
def combineScores (heuristic_weight llm_weight : ℚ)
    (h l : RelevanceScore) : Except PyErr RelevanceScore :=
  let overall := h.overall_score * heuristic_weight + l.overall_score * llm_weight
  let factors : RelevanceFactors :=
    { semantic_alignment :=
        h.factors.semantic_alignment * heuristic_weight +
          l.factors.semantic_alignment * llm_weight,
      temporal_relevance :=
        h.factors.temporal_relevance * heuristic_weight +
          l.factors.temporal_relevance * llm_weight,
      goal_contribution :=
        h.factors.goal_contribution * heuristic_weight +
          l.factors.goal_contribution * llm_weight,
      information_quality :=
        h.factors.information_quality * heuristic_weight +
          l.factors.information_quality * llm_weight,
      factual_consistency :=
        h.factors.factual_consistency * heuristic_weight +
          l.factors.factual_consistency * llm_weight }
  match decisionMember "REMOVE" with
  | .error e => .error e
  | .ok dRemove =>
    if h.decision = dRemove ∨ l.decision = dRemove then
      .ok { overall_score := overall, factors := factors, decision := dRemove,
            explanation := "Composite evaluation: " ++ h.explanation ++ " | LLM: " ++ l.explanation }
    else
      match decisionMember "REVIEW" with
      | .error e => .error e
      | .ok dReview =>
        if h.decision = dReview ∨ l.decision = dReview then
          .ok { overall_score := overall, factors := factors, decision := dReview,
                explanation := "Composite evaluation: " ++ h.explanation ++ " | LLM: " ++ l.explanation }
        else
          match decisionMember "KEEP" with
          | .error e => .error e
          | .ok dKeep =>
            .ok { overall_score := overall, factors := factors, decision := dKeep,
                  explanation := "Composite evaluation: " ++ h.explanation ++ " | LLM: " ++ l.explanation }

/-- CompositeRelevanceEvaluator.evaluate (composite_evaluator.py lines
84-121).  The heuristic sub-evaluation at line 94 sits outside the try
block, so an exception it raises — and it always raises, through
_make_decision — propagates to the caller.  The try guards the model
call and the _combine_scores merge: any exception there (including the
AttributeError _combine_scores itself raises) is caught and the
heuristic-only score returned. -/
def compositeEvaluate (use_llm : Bool) (heuristic_weight llm_weight : ℚ)
    (force_llm : Bool) (heuristic_call : Except PyErr RelevanceScore)
    (llm_call : Except PyErr RelevanceScore) : Except PyErr RelevanceScore :=
  match heuristic_call with
  | .error e => .error e
  | .ok heuristic_score =>
    if use_llm = true ∧
        (heuristic_score.overall_score < 6/10 ∨
          (heuristic_score.overall_score > 4/10 ∧ heuristic_score.overall_score < 7/10) ∨
          force_llm = true) then
      match llm_call with
      | .error _ => .ok heuristic_score
      | .ok llm_score =>
        match combineScores heuristic_weight llm_weight heuristic_score llm_score with
        | .error _ => .ok heuristic_score
        | .ok combined => .ok combined
    else .ok heuristic_score

/-! ### Ordered-dictionary and set helpers

OrderedDict is modelled as an association list in insertion order, head =
oldest entry.  Assignment followed by move_to_end is erase + append;
plain dict assignment updates in place for an existing key and appends a
new key; popitem(last=False) takes the head. -/

/-- Lookup in an association list (dict access). -/
def odGet {α : Type} (l : List (String × α)) (k : String) : Option α :=
  (l.find? (fun p => p.1 = k)).map (·.2)

/-- dict.pop: remove a key, keeping the order of the rest. -/
def odErase {α : Type} (l : List (String × α)) (k : String) : List (String × α) :=
  l.filter (fun p => p.1 ≠ k)

/-- OrderedDict assignment immediately followed by move_to_end(key). -/
def odPutEnd {α : Type} (l : List (String × α)) (k : String) (v : α) :
    List (String × α) :=
  odErase l k ++ [(k, v)]

/-- Plain dict assignment: update in place if the key exists, else append. -/
def dictPut {α : Type} (l : List (String × α)) (k : String) (v : α) :
    List (String × α) :=
  if (odGet l k).isSome then l.map (fun p => if p.1 = k then (k, v) else p)
  else l ++ [(k, v)]

/-- set.add for the session index sets. -/
def setAdd (l : List String) (k : String) : List String :=
  if k ∈ l then l else l ++ [k]

/-! ### The storage entity and the two block schemas

core/entities/conversation_block.py defines the current (new-schema)
ConversationBlock.  The storage layer in
infrastructure/storage/memory_store.py still reads the old-schema
attributes (messages, created_at), which the pydantic model does not
define: accessing them raises AttributeError.  The structure below holds
the new-schema fields the verified code paths read; the full pydantic
field list is recorded separately so attribute reads can be checked. -/

/-- New-schema ConversationBlock (fields read by the verified paths;
timestamps are abstract ticks). -/
structure ConversationBlock where
  block_id : String
  sequence_number : ℤ
  session_id : String
  content : String
  source : String
  message_id : String
  relevance_score : Option ℚ := none
  access_count : ℕ := 0
  last_accessed : ℕ := 0
deriving DecidableEq, Repr

/-- Storage tiers (core/interfaces/storage.py). -/
inductive StorageTier where
  | hot
  | warm
  | cold
deriving DecidableEq, Repr

/-- The complete pydantic field list of ConversationBlock
(core/entities/conversation_block.py lines 28-68). -/
def conversationBlockFields : List String :=
  ["block_id", "sequence_number", "timestamp", "session_id",
   "content", "content_type", "source", "message_id",
   "tool_name", "tool_parameters", "tool_result",
   "relevance_score", "confidence_score", "quality_metrics",
   "relevance_tags", "evaluation_result",
   "memory_tier", "access_count", "last_accessed",
   "retention_priority", "compressed_size",
   "parent_blocks", "child_blocks", "conversation_thread", "context_window",
   "processing_status", "evaluation_reason", "correction_history"]

/-- Python getattr against the pydantic model: defined fields succeed,
anything else raises AttributeError. -/
def getattrCheck (name : String) : Except PyErr Unit :=
  if name ∈ conversationBlockFields then .ok () else .error (.attributeError name)

/-- One serialized message of the old-schema payload expected by
_serialize_block / _deserialize_block. -/
structure SerializedMessage where
  role : String
  content : String
deriving DecidableEq, Repr

/-- The old-schema dict produced by _serialize_block and consumed by
_deserialize_block (json / gzip byte-level encoding elided; the warm tier
stores this payload). -/
structure SerializedBlock where
  block_id : String
  messages : List SerializedMessage
  relevance_score : Option ℚ
  access_count : ℕ
deriving DecidableEq, Repr

/-- InMemoryStore._serialize_block (memory_store.py lines 312-329): it
reads block.block_id, then block.messages — but the new-schema
ConversationBlock defines no messages field (nor created_at), so the read
raises AttributeError("messages") on every block.  The ok branch is
therefore unreachable and returns a placeholder empty payload. -/
def serializeBlock (b : ConversationBlock) : Except PyErr SerializedBlock :=
  match getattrCheck "block_id" with
  | .error e => .error e
  | .ok _ =>
    match getattrCheck "messages" with
    | .error e => .error e
    | .ok _ =>
      .ok { block_id := b.block_id, messages := [],
            relevance_score := b.relevance_score, access_count := b.access_count }

/-- InMemoryStore._deserialize_block (memory_store.py lines 331-357): each
message is rebuilt with MessageRole[...], a name memory_store.py never
imports, so a nonempty message list raises NameError("MessageRole"); with
no messages the ConversationBlock(...) call omits the required new-schema
fields sequence_number, session_id, content, source and message_id, so
pydantic raises a validation error.  Every call raises. -/
def deserializeBlock (d : SerializedBlock) : Except PyErr ConversationBlock :=
  match d.messages with
  | _ :: _ => .error (.nameError "MessageRole")
  | [] => .error (.validationError
      "missing required fields: sequence_number, session_id, content, source, message_id")

/-- The cold-tier summary dict built by _create_summary (memory_store.py
lines 359-382; head/tail snippet text elided into the summary string). -/
structure ColdSummary where
  summary : String
  message_count : ℕ
  total_length : ℕ
  relevance_score : ℚ
deriving DecidableEq, Repr

/-- InMemoryStore._create_summary applied to a serialized payload. -/
def createSummary (d : SerializedBlock) : ColdSummary :=
  { summary := "summary",
    message_count := d.messages.length,
    total_length := (d.messages.map (fun m => m.content.length)).sum,
    relevance_score := d.relevance_score.getD (1/2) }

/-- The mutable state of InMemoryStore: three tier structures, the tier
index and the session index (statistics counters elided). -/
structure StoreState where
  hot_capacity : ℕ
  warm_capacity : ℕ
  cold_capacity : ℕ
  hot : List (String × ConversationBlock)
  warm : List (String × SerializedBlock)
  cold : List (String × ColdSummary)
  tier_index : List (String × StorageTier)
  session_index : List (String × List String)
deriving DecidableEq, Repr

/-! ### InMemoryStore operations (memory_store.py) -/

/-- The cold-capacity eviction step shared by _store_cold (memory_store.py
lines 160-172): pop the oldest summary permanently and drop its tier
index entry; next(iter(...)) on an empty dict raises StopIteration. -/
def coldEvictIfFull (s : StoreState) : Except (PyErr × StoreState) StoreState :=
  if s.cold.length ≥ s.cold_capacity then
    match s.cold with
    | [] => .error (.stopIteration, s)
    | (k0, _) :: rest =>
      .ok { s with cold := rest, tier_index := odErase s.tier_index k0 }
  else .ok s

/-- InMemoryStore._store_cold on a summary dict (the isinstance branch for
ConversationBlock is storeColdBlock below): evict if full, then insert
the summary and index the key as Cold. -/
def storeColdSummary (key : String) (value : ColdSummary) (s : StoreState) :
    Except (PyErr × StoreState) StoreState :=
  match coldEvictIfFull s with
  | .error es => .error es
  | .ok s1 => .ok { s1 with
      cold := odPutEnd s1.cold key value
      tier_index := dictPut s1.tier_index key .cold }

/-- InMemoryStore._store_cold on a ConversationBlock (memory_store.py lines
158-182): after the eviction step it serializes the block to build a
summary, which raises AttributeError("messages") on every new-schema
block. -/
def storeColdBlock (key : String) (value : ConversationBlock) (s : StoreState) :
    Except (PyErr × StoreState) StoreState :=
  match coldEvictIfFull s with
  | .error es => .error es
  | .ok s1 =>
    match serializeBlock value with
    | .error e => .error (e, s1)
    | .ok d => .ok { s1 with
        cold := odPutEnd s1.cold key (createSummary d)
        tier_index := dictPut s1.tier_index key .cold }

/-- The warm-capacity eviction step of _store_warm (memory_store.py lines
117-133): if the warm tier is full, pop its oldest payload and demote it
to Cold as a summary; popitem on an empty dict raises KeyError. -/
def warmEvictIfFull (s : StoreState) : Except (PyErr × StoreState) StoreState :=
  if s.warm.length ≥ s.warm_capacity then
    match s.warm with
    | [] => .error (.keyError, s)
    | (k0, d0) :: rest => storeColdSummary k0 (createSummary d0) { s with warm := rest }
  else .ok s

/-- InMemoryStore._store_warm (memory_store.py lines 114-156): the eviction
step, then serialization of the incoming block — which raises
AttributeError("messages") on every new-schema block, so the insertion
and the Warm tier-index assignment below it are never reached.  The error
value carries the state with the eviction already applied. -/
def storeWarm (key : String) (value : ConversationBlock) (s : StoreState) :
    Except (PyErr × StoreState) StoreState :=
  match warmEvictIfFull s with
  | .error es => .error es
  | .ok s1 =>
    match serializeBlock value with
    | .error e => .error (e, s1)
    | .ok d => .ok { s1 with
        warm := odPutEnd s1.warm key d
        tier_index := dictPut s1.tier_index key .warm }

/-- InMemoryStore._store_hot (memory_store.py lines 98-112): at capacity,
popitem(last=False) removes the least-recently-used entry and demotes it
through _store_warm; then the new entry is inserted and moved to the end.
An error raised by the demotion propagates with the eviction already
applied and the new entry not inserted. -/
def storeHot (key : String) (value : ConversationBlock) (s : StoreState) :
    Except (PyErr × StoreState) StoreState :=
  if s.hot.length ≥ s.hot_capacity then
    match s.hot with
    | [] => .error (.keyError, s)
    | (k0, v0) :: rest =>
      match storeWarm k0 v0 { s with hot := rest } with
      | .error es => .error es
      | .ok s1 => .ok { s1 with hot := odPutEnd s1.hot key value }
  else .ok { s with hot := odPutEnd s.hot key value }

/-- InMemoryStore.store (memory_store.py lines 74-96): dispatch on the
tier, then update the session index and the tier index.  On an exception
from the tier helper the index updates are skipped. -/
def store (key : String) (value : ConversationBlock) (tier : StorageTier)
    (session_id : String) (s : StoreState) : Except (PyErr × StoreState) StoreState :=
  let r :=
    match tier with
    | .hot => storeHot key value s
    | .warm => storeWarm key value s
    | .cold => storeColdBlock key value s
  match r with
  | .error es => .error es
  | .ok s1 => .ok { s1 with
      session_index := dictPut s1.session_index session_id
        (setAdd ((odGet s1.session_index session_id).getD []) key)
      tier_index := dictPut s1.tier_index key tier }

/-- InMemoryStore.retrieve (memory_store.py lines 184-252).  A Hot hit
updates last_accessed and access_count in place and moves the entry to
the end.  A Warm hit decompresses and deserializes the stored payload —
which always raises (deserializeBlock); were a block produced with a
stored access_count above 5, it would be re-stored Hot and popped from
Warm without updating the tier index.  A Cold hit rebuilds a minimal
block using the name MessageRole, which memory_store.py never imports, so
it raises NameError.  Warm and Cold hits perform no access_count or
last_accessed update of their own. -/
def retrieve (now : ℕ) (key : String) (s : StoreState) :
    Except (PyErr × StoreState) (Option ConversationBlock × StoreState) :=
  match odGet s.tier_index key with
  | none => .ok (none, s)
  | some .hot =>
    match odGet s.hot key with
    | none => .ok (none, s)
    | some b =>
      let b1 := { b with last_accessed := now, access_count := b.access_count + 1 }
      .ok (some b1, { s with hot := odPutEnd s.hot key b1 })
  | some .warm =>
    match odGet s.warm key with
    | none => .ok (none, s)
    | some d =>
      match deserializeBlock d with
      | .error e => .error (e, s)
      | .ok b =>
        if b.access_count > 5 then
          match storeHot key b s with
          | .error es => .error es
          | .ok s1 => .ok (some b, { s1 with warm := odErase s1.warm key })
        else .ok (some b, s)
  | some .cold =>
    match odGet s.cold key with
    | none => .ok (none, s)
    | some _ => .error (.nameError "MessageRole", s)

/-- InMemoryStore.delete (memory_store.py lines 254-275): remove the entry
from its indexed tier, drop the tier index entry, and discard the key
from the given session's index set. -/
def delete (key : String) (session_id : String) (s : StoreState) :
    Bool × StoreState :=
  match odGet s.tier_index key with
  | none => (false, s)
  | some t =>
    let s1 :=
      match t with
      | .hot => { s with hot := odErase s.hot key }
      | .warm => { s with warm := odErase s.warm key }
      | .cold => { s with cold := odErase s.cold key }
    let s2 := { s1 with tier_index := odErase s1.tier_index key }
    (true, { s2 with
      session_index := dictPut s2.session_index session_id
        (((odGet s2.session_index session_id).getD []).filter (fun x => x ≠ key)) })

/-- InMemoryStore.list_keys (memory_store.py lines 277-292) without the
key-text filter, which no verified caller passes: all indexed keys in
insertion order, optionally restricted to a session's key set. -/
def listKeys (sessionFilter : Option String) (s : StoreState) : List String :=
  let all := s.tier_index.map (fun p => p.1)
  match sessionFilter with
  | none => all
  | some sid => all.filter (fun k => k ∈ (odGet s.session_index sid).getD [])

/-! ### MemoryStorageManager (manager.py) -/

/-- Manager state: the wrapped store, the tier-assignment map and the two
thresholds (migration statistics elided). -/
structure MgrState where
  store : StoreState
  tier_assignments : List (String × StorageTier)
  relevance_threshold : ℚ := 4/10
  promotion_threshold : ℚ := 7/10
deriving DecidableEq, Repr

/-- MemoryStorageManager._determine_tier (manager.py lines 279-291).
Comparing a None relevance_score against a float threshold raises
TypeError in Python 3. -/
def determineTier (m : MgrState) (b : ConversationBlock) : Except PyErr StorageTier :=
  match b.relevance_score with
  | none => .error (.typeError "NoneType not comparable with float")
  | some r =>
    .ok (if r > m.promotion_threshold then .hot
         else if r > m.relevance_threshold then .warm
         else .cold)

/-- MemoryStorageManager.store_block (manager.py lines 70-91). -/
def mgrStoreBlock (b : ConversationBlock) (tier : Option StorageTier)
    (session_id : String) (m : MgrState) : Except (PyErr × MgrState) MgrState :=
  let tierR : Except PyErr StorageTier :=
    match tier with
    | some t => .ok t
    | none => determineTier m b
  match tierR with
  | .error e => .error (e, m)
  | .ok t =>
    match store b.block_id b t session_id m.store with
    | .error (e, s1) => .error (e, { m with store := s1 })
    | .ok s1 => .ok { m with
        store := s1
        tier_assignments := dictPut m.tier_assignments b.block_id t }

/-- MemoryStorageManager.delete_block (manager.py lines 111-124). -/
def mgrDeleteBlock (block_id : String) (session_id : String) (m : MgrState) :
    Bool × MgrState :=
  let r := delete block_id session_id m.store
  if r.1 then
    (true, { m with
      store := r.2
      tier_assignments := odErase m.tier_assignments block_id })
  else (false, { m with store := r.2 })

/-- MemoryStorageManager.list_blocks (manager.py lines 126-142). -/
def mgrListBlocks (tier : Option StorageTier) (session_id : Option String)
    (m : MgrState) : List String :=
  let all := listKeys session_id m.store
  match tier with
  | some t => all.filter (fun k => odGet m.tier_assignments k = some t)
  | none => all

mutual

/-- MemoryStorageManager.retrieve_block (manager.py lines 93-109): the
store retrieval, then the promotion check — for a block whose assignment
is not Hot, access_count above 5 or relevance_score above the promotion
threshold triggers _promote_block, i.e. a migrate_tier call, which
recursively calls retrieve_block on the unchanged state; the fuel
argument models the Python recursion limit (RecursionError when
exhausted).  Short-circuit: the score is compared (and a None score
raises TypeError) only when access_count is not above 5. -/
def mgrRetrieveBlock : ℕ → ℕ → String → String → MgrState →
    Except (PyErr × MgrState) (Option ConversationBlock × MgrState)
  | 0, _, _, _, m => .error (.recursionError, m)
  | fuel + 1, now, block_id, session_id, m =>
    match retrieve now block_id m.store with
    | .error (e, s1) => .error (e, { m with store := s1 })
    | .ok (none, s1) => .ok (none, { m with store := s1 })
    | .ok (some b, s1) =>
      let m1 := { m with store := s1 }
      match odGet m1.tier_assignments block_id with
      | none => .ok (some b, m1)
      | some t =>
        if t = .hot then .ok (some b, m1)
        else
          let cond : Except PyErr Bool :=
            if b.access_count > 5 then .ok true
            else match b.relevance_score with
              | none => .error (.typeError "NoneType not comparable with float")
              | some r => .ok (decide (r > m1.promotion_threshold))
          match cond with
          | .error e => .error (e, m1)
          | .ok false => .ok (some b, m1)
          | .ok true =>
            let to_tier := if t = .cold then StorageTier.warm else StorageTier.hot
            match migrateTier fuel now block_id to_tier session_id m1 with
            | .error em => .error em
            | .ok (_, m2) => .ok (some b, m2)

/-- MemoryStorageManager.migrate_tier (manager.py lines 144-177): retrieve
(itself possibly promoting), then delete, then re-store at the target
tier; statistics comparisons elided. -/
def migrateTier : ℕ → ℕ → String → StorageTier → String → MgrState →
    Except (PyErr × MgrState) (Bool × MgrState)
  | 0, _, _, _, _, m => .error (.recursionError, m)
  | fuel + 1, now, block_id, to_tier, session_id, m =>
    match mgrRetrieveBlock fuel now block_id session_id m with
    | .error em => .error em
    | .ok (none, m1) => .ok (false, m1)
    | .ok (some b, m1) =>
      let r := mgrDeleteBlock block_id session_id m1
      match mgrStoreBlock b (some to_tier) session_id r.2 with
      | .error (e, m3) => .error (e, m3)
      | .ok m3 => .ok (true, m3)

end

/-! ### SelfCorrector (self_corrector.py) -/

/-- Corrector construction parameters (self_corrector.py lines 26-47). -/
structure CorrectorConfig where
  correction_threshold : ℚ := 4/10
  review_threshold : ℚ := 6/10
  max_corrections_per_cycle : ℕ := 3
  enable_auto_correction : Bool := true
deriving DecidableEq, Repr

/-- One entry of the correction history (timestamps elided). -/
inductive HistoryEntry where
  | removal (block_id : String) (reason : String)
  | improvement (original_block_id new_block_id : String) (reason : String)
deriving DecidableEq, Repr

/-- The kwargs SelfCorrector._improve_block passes to the ConversationBlock
constructor (self_corrector.py lines 263-276). -/
def improveBlockKwargs : List String :=
  ["block_id", "sequence_number", "session_id", "content", "source",
   "message_id", "relevance_score", "metadata"]

/-- The replacement block built in SelfCorrector._improve_block on provider
success: id and message id get the _improved suffix, the relevance score
is the original overall score times 1.5 with no clamping.  The metadata
kwarg passed at the call site is not a field of the new-schema
ConversationBlock, and pydantic silently ignores unknown constructor
kwargs, so the original content and improvement reason are dropped: the
replacement cannot carry them. -/
def mkImproved (b : ConversationBlock) (score : RelevanceScore)
    (content : String) : ConversationBlock :=
  { block_id := b.block_id ++ "_improved",
    sequence_number := b.sequence_number,
    session_id := b.session_id,
    content := content,
    source := b.source,
    message_id := b.message_id ++ "_improved",
    relevance_score := some (score.overall_score * (3/2)) }

/-- The context-gathering loop of _improve_block (self_corrector.py lines
208-219), outside the try block: list the session's blocks, locate the
target, and retrieve the neighbours with indices in
[max(0, idx-3), min(len, idx+3)) other than the target; retrieval errors
propagate.  The retrieved blocks feed only the prompt text, but the
retrievals mutate access metadata, so the state is threaded. -/
def improveCtx (fuel now : ℕ) (b : ConversationBlock) (session_id : String)
    (m : MgrState) : Except (PyErr × MgrState) MgrState :=
  let ids := mgrListBlocks none (some session_id) m
  match ids.findIdx? (fun k => k = b.block_id) with
  | none => .ok m
  | some idx =>
    let lo := idx - 3
    let hi := min ids.length (idx + 3)
    (List.range' lo (hi - lo)).foldlM
      (fun mm i =>
        if i = idx then .ok mm
        else
          match mgrRetrieveBlock fuel now (ids.getD i "") session_id mm with
          | .error em => Except.error em
          | .ok r => .ok r.2)
      m

/-- Outcome of one correct_conversation call.  completed carries the
corrections list that the source appends to the history at the end of the
call; cancelled models a CancelledError delivered at a provider-call
suspension point (task.cancel during an in-flight repair), which the
except-Exception handlers do not catch, so the call aborts with the
mutations made so far and the history is never extended; raised carries
any other propagating exception. -/
inductive CycleOutcome where
  | completed (corrections : List HistoryEntry) (m : MgrState)
  | cancelled (m : MgrState)
  | raised (e : PyErr) (m : MgrState)
deriving DecidableEq, Repr

/-- SelfCorrector.correct_conversation (self_corrector.py lines 112-190),
with cancellation made explicit.  Items are taken in input order; the
loop breaks once count reaches max_corrections_per_cycle.  The dispatch
at line 134 first evaluates Decision.REMOVE — a missing member — so the
first item below the cap raises AttributeError("REMOVE") and the cycle
aborts with no action taken; the Remove branch, the line-157 REVIEW
lookup and the whole repair branch (context gathering, the provider call
as the suspension point where a pending cancellation would be delivered,
delete-and-replace, the improvement entry) are modelled for completeness
but are dead code behind that raise.  llm gives the outcome of the n-th
provider call of the cycle. -/
def correctGo (cfg : CorrectorConfig) (fuel now : ℕ) (session_id : String)
    (llm : ℕ → Except PyErr String) :
    List (ConversationBlock × RelevanceScore) → ℕ → Option ℕ → ℕ →
    List HistoryEntry → MgrState → CycleOutcome
  | [], _, _, _, acc, m => .completed acc m
  | (b, score) :: rest, calls, cancelAt, count, acc, m =>
    if count ≥ cfg.max_corrections_per_cycle then .completed acc m
    else
      match decisionMember "REMOVE" with
      | .error e => .raised e m
      | .ok dRemove =>
        if score.decision = dRemove then
          match mgrDeleteBlock b.block_id session_id m with
          | (true, m1) =>
            correctGo cfg fuel now session_id llm rest calls cancelAt (count + 1)
              (acc ++ [.removal b.block_id score.explanation]) m1
          | (false, m1) =>
            correctGo cfg fuel now session_id llm rest calls cancelAt count acc m1
        else
          match decisionMember "REVIEW" with
          | .error e => .raised e m
          | .ok dReview =>
            if score.decision = dReview ∧ cfg.enable_auto_correction = true then
              match improveCtx fuel now b session_id m with
              | .error em => .raised em.1 em.2
              | .ok m1 =>
                if cancelAt = some calls then .cancelled m1
                else
                  match llm calls with
                  | .error _ =>
                    correctGo cfg fuel now session_id llm rest (calls + 1) cancelAt count acc m1
                  | .ok content =>
                    match mgrStoreBlock (mkImproved b score content) none session_id
                        (mgrDeleteBlock b.block_id session_id m1).2 with
                    | .error (e, m3) => .raised e m3
                    | .ok m3 =>
                      correctGo cfg fuel now session_id llm rest (calls + 1) cancelAt
                        (count + 1)
                        (acc ++ [.improvement b.block_id
                          (mkImproved b score content).block_id score.explanation]) m3
            else
              correctGo cfg fuel now session_id llm rest calls cancelAt count acc m

/-- The history update at the end of correct_conversation (self_corrector.py
lines 182-188): on completion, if the corrections list is nonempty it is
appended and the history trimmed to its last 100 entries; an empty list
leaves the history untouched, and a cancelled or raised cycle never
reaches this code. -/
def runCycleHistory (history : List HistoryEntry) (outcome : CycleOutcome) :
    List HistoryEntry :=
  match outcome with
  | .completed corrections _ =>
    if corrections = [] then history
    else
      let h := history ++ corrections
      if h.length > 100 then h.drop (h.length - 100) else h
  | .cancelled _ => history
  | .raised _ _ => history

/-- A concrete factor vector with every factor equal to 0.5, used by
witness instantiations. -/
def halfFactors : RelevanceFactors :=
  { semantic_alignment := 1/2, temporal_relevance := 1/2,
    goal_contribution := 1/2, information_quality := 1/2,
    factual_consistency := 1/2 }

/-! ### Concrete scenario states used by the claims -/

/-- A fresh InMemoryStore with the given tier capacities. -/
def emptyStore (hc wc cc : ℕ) : StoreState :=
  { hot_capacity := hc, warm_capacity := wc, cold_capacity := cc,
    hot := [], warm := [], cold := [], tier_index := [], session_index := [] }

/-- The i-th distinct new-schema test block of session s. -/
def mkBlock (i : ℕ) : ConversationBlock :=
  { block_id := "blk" ++ toString i, sequence_number := i, session_id := "s",
    content := "content", source := "user", message_id := "msg" ++ toString i }

/-- Store n distinct blocks at the Hot tier, in order. -/
def storeMany (n : ℕ) (s : StoreState) : Except (PyErr × StoreState) StoreState :=
  (List.range n).foldlM
    (fun st i => store ("blk" ++ toString i) (mkBlock i) .hot "s" st) s

/-- The state after a store call, whether it returned or raised (Python
mutations made before a raise persist). -/
def finalStoreState : Except (PyErr × StoreState) StoreState → StoreState
  | .ok s => s
  | .error (_, s) => s

/-- The exception raised by a store call, if any. -/
def errOf : Except (PyErr × StoreState) StoreState → Option PyErr
  | .ok _ => none
  | .error (e, _) => some e

/-- The spec scenario of C2: 101 distinct blocks stored into a Hot tier of
capacity 100. -/
def c2Result : Except (PyErr × StoreState) StoreState :=
  storeMany 101 (emptyStore 100 500 2000)

/-- The list of tier structures that physically contain key k. -/
def tierMembership (s : StoreState) (k : String) : List StorageTier :=
  (if (odGet s.hot k).isSome then [StorageTier.hot] else []) ++
    (if (odGet s.warm k).isSome then [StorageTier.warm] else []) ++
    (if (odGet s.cold k).isSome then [StorageTier.cold] else [])

/-- The C8 invariant: every indexed key is present in exactly the tier its
index entry maps to, and unindexed keys are in no tier structure. -/
def indexConsistent (s : StoreState) : Prop :=
  ∀ k, tierMembership s k = ((odGet s.tier_index k).map (fun t => [t])).getD []

/-- Two Hot stores into a capacity-1 Hot tier: the second store evicts "a"
and then raises inside the demotion, losing "a" while its index entry
survives. -/
def bugState : StoreState :=
  finalStoreState (store "b" (mkBlock 1) .hot "s"
    (finalStoreState (store "a" (mkBlock 0) .hot "s" (emptyStore 1 500 2000))))

/-- An old-schema warm payload with no messages, stored access_count 0. -/
def warmPayload : SerializedBlock :=
  { block_id := "w", messages := [], relevance_score := some (1/2), access_count := 0 }

/-- A store state holding one Warm-indexed entry (such states are not
reachable through store, which raises before any Warm insertion; the
retrieve code is checked against them directly). -/
def warmState : StoreState :=
  { emptyStore 100 500 2000 with
    warm := [("w", warmPayload)]
    tier_index := [("w", StorageTier.warm)] }

/-- A fresh manager with default thresholds. -/
def emptyMgr (hc wc cc : ℕ) : MgrState :=
  { store := emptyStore hc wc cc, tier_assignments := [] }

/-- The manager state after a call, whether it returned or raised. -/
def mgrFinal : Except (PyErr × MgrState) MgrState → MgrState
  | .ok m => m
  | .error (_, m) => m

/-- Store n distinct blocks through the manager at the Hot tier. -/
def mgrStoreMany (n : ℕ) (m : MgrState) : Except (PyErr × MgrState) MgrState :=
  (List.range n).foldlM (fun mm i => mgrStoreBlock (mkBlock i) (some .hot) "s" mm) m

/-- The manager state carried by a cycle outcome. -/
def outcomeMgr : CycleOutcome → MgrState
  | .completed _ m => m
  | .cancelled m => m
  | .raised _ m => m

/-- The corrections list of a completed cycle, none otherwise. -/
def outcomeCorr : CycleOutcome → Option (List HistoryEntry)
  | .completed cs _ => some cs
  | .cancelled _ => none
  | .raised _ _ => none

/-- A low-scoring problematic item (overall 0.3).  The claims call for a
Remove-decided score, but the Decision enum has no REMOVE member, so no
such score is constructible; the stand-in member below is never read,
because correct_conversation raises at the Decision.REMOVE lookup before
any comparison. -/
def score03 : RelevanceScore :=
  { overall_score := 3/10, factors := halfFactors,
    decision := .discard, explanation := "low score" }

/-- Factors all equal to 0.68: above both override thresholds, with
default-weight overall score 0.68, in the claimed Review band. -/
def factors068 : RelevanceFactors :=
  { semantic_alignment := 17/25, temporal_relevance := 17/25,
    goal_contribution := 17/25, information_quality := 17/25,
    factual_consistency := 17/25 }

/-- A would-be Review-decided score with overall 0.68; as with score03,
no REVIEW member exists and the stand-in decision is never read. -/
def score068 : RelevanceScore :=
  { overall_score := 17/25, factors := factors068,
    decision := .discard, explanation := "needs review" }

/-- A provider that always fails. -/
def noLlm : ℕ → Except PyErr String := fun _ => .error (.providerError "no provider")

/-- A provider that always returns the improved content. -/
def llmOk : ℕ → Except PyErr String := fun _ => .ok "improved content"

/-- The default corrector construction. -/
def defaultCfg : CorrectorConfig := {}

/-- Ten distinct blocks stored Hot through the manager. -/
def c5Mgr : MgrState := mgrFinal (mgrStoreMany 10 (emptyMgr 100 500 2000))

/-- The C5 input: ten low-scoring problematic blocks, in order (the
claimed Remove decision is not constructible; see score03). -/
def items10 : List (ConversationBlock × RelevanceScore) :=
  (List.range 10).map (fun i => (mkBlock i, score03))

/-- One correct_conversation call on the C5 scenario. -/
def c5Run : CycleOutcome :=
  correctGo defaultCfg 100 0 "s" noLlm items10 0 none 0 [] c5Mgr

/-- One problematic block stored Hot through the manager. -/
def c6Mgr : MgrState :=
  mgrFinal (mgrStoreBlock (mkBlock 0) (some .hot) "s" (emptyMgr 100 500 2000))

/-- The C6 repair attempt with a succeeding provider. -/
def c6Run : CycleOutcome :=
  correctGo defaultCfg 100 0 "s" llmOk [(mkBlock 0, score068)] 0 none 0 [] c6Mgr

/-- The C6 repair attempt with a failing provider. -/
def c6RunFail : CycleOutcome :=
  correctGo defaultCfg 100 0 "s" noLlm [(mkBlock 0, score068)] 0 none 0 [] c6Mgr

/-- Two blocks stored Hot for the C4 cycle. -/
def c4Mgr : MgrState := mgrFinal (mgrStoreMany 2 (emptyMgr 100 500 2000))

/-- The C4 cycle input: a low-scoring item then a would-be-Review item. -/
def c4Items : List (ConversationBlock × RelevanceScore) :=
  [(mkBlock 0, score03), (mkBlock 1, score068)]

/-- The in-place access update performed by a Hot-tier hit of
InMemoryStore.retrieve (memory_store.py lines 201-203). -/
def touch (now : ℕ) (b : ConversationBlock) : ConversationBlock :=
  { b with last_accessed := now, access_count := b.access_count + 1 }

/-- The cycle in flight at the moment stop() is requested: it aborts by
itself at its first item, before any provider call exists to suspend on. -/
def c4Run : CycleOutcome :=
  correctGo defaultCfg 100 0 "s" llmOk c4Items 0 none 0 [] c4Mgr

/-- Pointwise range condition on a relevance score value: undefined, or
in the closed interval [0, 1]. -/
def scoreInRange : Option ℚ → Prop
  | none => True
  | some r => 0 ≤ r ∧ r ≤ 1

/-- The C7 invariant: every block payload held by any tier structure
carries a relevance score that is undefined or in [0, 1]. -/
def blockScoresInRange (s : StoreState) : Prop :=
  (∀ p ∈ s.hot, scoreInRange p.2.relevance_score) ∧
  (∀ p ∈ s.warm, scoreInRange p.2.relevance_score) ∧
  (∀ p ∈ s.cold, 0 ≤ p.2.relevance_score ∧ p.2.relevance_score ≤ 1)

/-- The state after a retrieve call, whether it returned or raised. -/
def retrieveFinal :
    Except (PyErr × StoreState) (Option ConversationBlock × StoreState) → StoreState
  | .ok r => r.2
  | .error (_, s) => s

/-- The relevance score ingestion assigns to a user block
(core/agent.py line 124). -/
def ingestionUserScore : Option ℚ := some 1

/-- The relevance score ingestion assigns to an assistant block
(core/agent.py line 167). -/
def ingestionAssistantScore : Option ℚ := some (9/10)

/-- C9 counterexample: the claim quantifies over every choice of
constructor weights, but with all five weights zero the constructor
divides by a zero total and raises ZeroDivisionError: no normalized
weights exist, so they do not sum to 1. -/
theorem normalize_weights_zero_total_raises :
    normalizeWeights
      { semantic_weight := 0, temporal_weight := 0, goal_weight := 0,
        information_weight := 0, factual_weight := 0 } =
      .error .zeroDivisionError := by
  simp [normalizeWeights, FactorWeights.total]

/-- C9 amended: for every choice of constructor weights whose total is
nonzero, normalization succeeds, the five normalized weights sum to
exactly 1, and the overall score is the weighted sum of the factors under
the normalized weights. -/
theorem normalize_weights_sum_to_one (w : FactorWeights) (h : w.total ≠ 0) :
    ∃ nw, normalizeWeights w = .ok nw ∧ nw.total = 1 ∧
      ∀ f, overallScore nw f =
        f.semantic_alignment * nw.semantic_weight +
          f.temporal_relevance * nw.temporal_weight +
          f.goal_contribution * nw.goal_weight +
          f.information_quality * nw.information_weight +
          f.factual_consistency * nw.factual_weight := by
  refine ⟨{ semantic_weight := w.semantic_weight / w.total,
            temporal_weight := w.temporal_weight / w.total,
            goal_weight := w.goal_weight / w.total,
            information_weight := w.information_weight / w.total,
            factual_weight := w.factual_weight / w.total },
          by simp [normalizeWeights, h], ?_, fun f => rfl⟩
  show w.semantic_weight / w.total + w.temporal_weight / w.total +
      w.goal_weight / w.total + w.information_weight / w.total +
      w.factual_weight / w.total = 1
  rw [div_add_div_same, div_add_div_same, div_add_div_same, div_add_div_same]
  exact div_self h

/-- Witness for the amended C9 at the default constructor weights. -/
theorem normalize_weights_sum_to_one_witness :
    ∃ nw, normalizeWeights defaultWeights = .ok nw ∧ nw.total = 1 ∧
      ∀ f, overallScore nw f =
        f.semantic_alignment * nw.semantic_weight +
          f.temporal_relevance * nw.temporal_weight +
          f.goal_contribution * nw.goal_weight +
          f.information_quality * nw.information_weight +
          f.factual_consistency * nw.factual_weight :=
  normalize_weights_sum_to_one defaultWeights (by norm_num [FactorWeights.total, defaultWeights])

/-- Helper: _serialize_block raises AttributeError("messages") on every
new-schema block, because messages is not among its pydantic fields. -/
theorem serializeBlock_raises (b : ConversationBlock) :
    serializeBlock b = .error (.attributeError "messages") := rfl

/-- Helper: _deserialize_block raises on every payload (NameError with
messages present, a pydantic validation error without). -/
theorem deserializeBlock_raises (d : SerializedBlock) :
    ∃ e, deserializeBlock d = .error e := by
  obtain ⟨id, ms, rs, ac⟩ := d
  cases ms <;> exact ⟨_, rfl⟩

/-- Helper: _store_warm raises on every input: either the empty-popitem
KeyError (capacity 0), an error from the cold demotion, or the
unconditional serialization AttributeError. -/
theorem storeWarm_raises (k : String) (b : ConversationBlock) (s : StoreState) :
    ∃ e s1, storeWarm k b s = .error (e, s1) := by
  cases hev : warmEvictIfFull s with
  | error es =>
    obtain ⟨e, s1⟩ := es
    exact ⟨e, s1, by simp [storeWarm, hev]⟩
  | ok s1 =>
    exact ⟨.attributeError "messages", s1,
      by simp [storeWarm, hev, serializeBlock_raises]⟩

section ConcreteRuns

/- The Batteries rational operations are irreducible by default, which
blocks by-evaluation proofs; the kernel is unaffected. -/
attribute [local semireducible] Rat.mul Rat.inv Rat.add Rat.sub

set_option maxRecDepth 10000

/-- C2 (the code evaluated at the claimed scenario): storing 101 distinct
blocks into a store whose Hot tier has capacity 100 does not end with
Hot = 100 and Warm = 1.  The 101st store pops the least-recently-used
entry ("blk0") out of Hot and then raises AttributeError("messages")
inside the demotion serialization, so the run ends with Hot = 99,
Warm = 0, the new block "blk100" never stored, and "blk0" destroyed while
its tier index entry still says Hot. -/
theorem hot_capacity_overflow_crashes :
    errOf c2Result = some (.attributeError "messages") ∧
    (finalStoreState c2Result).hot.length = 99 ∧
    (finalStoreState c2Result).warm.length = 0 ∧
    odGet (finalStoreState c2Result).tier_index "blk0" = some .hot ∧
    (odGet (finalStoreState c2Result).hot "blk0").isSome = false ∧
    odGet (finalStoreState c2Result).tier_index "blk100" = none := by
  refine ⟨by decide, by decide, by decide, by decide, by decide, by decide⟩

/-- C3 (the code evaluated at the claimed behaviour): (1) no block can ever
be placed in the Warm tier — _store_warm raises on every input, so the
promotion scenario cannot even be set up; (2) a retrieve whose tier index
says Warm never returns a block (the deserialization raises), so in
particular it never increments an access count nor promotes anything;
(3) only a Hot hit updates access_count and last_accessed. -/
theorem warm_retrieval_never_updates_or_promotes :
    (∀ k b s, ∃ e s1, storeWarm k b s = Except.error (e, s1)) ∧
    (∀ now k s, odGet s.tier_index k = some .warm →
      ∀ b s1, retrieve now k s ≠ .ok (some b, s1)) ∧
    (∀ now k s b, odGet s.tier_index k = some .hot → odGet s.hot k = some b →
      retrieve now k s = .ok
        (some (touch now b), { s with hot := odPutEnd s.hot k (touch now b) })) := by
  refine ⟨storeWarm_raises, ?_, ?_⟩
  · intro now k s hidx b s1
    unfold retrieve
    rw [hidx]
    cases hw : odGet s.warm k with
    | none => simp
    | some d =>
      obtain ⟨e, he⟩ := deserializeBlock_raises d
      simp [he]
  · intro now k s b hidx hb
    unfold retrieve
    rw [hidx, hb]
    rfl

/-- Witness for C3: on a state holding one Warm-indexed entry with stored
access_count 0, retrieval does not return the block (it raises), in
particular the block is not promoted on any retrieval. -/
theorem warm_retrieval_never_updates_or_promotes_witness :
    retrieve 0 "w" warmState ≠ .ok (some (mkBlock 0), warmState) :=
  warm_retrieval_never_updates_or_promotes.2.1 0 "w" warmState (by decide)
    (mkBlock 0) warmState

/-- C8 (the code evaluated at a violating run): after filling a capacity-1
Hot tier with "a" and storing "b" (whose demotion of "a" raises
mid-transition), a subsequent completed retrieve of "a" returns None even
though the tier index still maps "a" to Hot, and "a" is present in no
tier structure: the block is lost mid-transition and the
exactly-one-tier invariant fails. -/
theorem block_lost_mid_transition :
    retrieve 0 "a" bugState = .ok (none, bugState) ∧
    odGet bugState.tier_index "a" = some .hot ∧
    tierMembership bugState "a" = [] ∧
    ¬ indexConsistent bugState := by
  refine ⟨rfl, by decide, by decide, fun h => absurd (h "a") (by decide)⟩

/-- Helper: the Decision.REMOVE lookup raises AttributeError. -/
theorem decisionMember_REMOVE :
    decisionMember "REMOVE" = .error (.attributeError "REMOVE") := rfl

/-- Helper: the Decision.KEEP lookup raises AttributeError. -/
theorem decisionMember_KEEP :
    decisionMember "KEEP" = .error (.attributeError "KEEP") := rfl

/-- Helper: the Decision.REVIEW lookup raises AttributeError. -/
theorem decisionMember_REVIEW :
    decisionMember "REVIEW" = .error (.attributeError "REVIEW") := rfl

/-- Helper: _make_decision raises AttributeError on every input, naming
exactly the member its branch order — the spec policy order — selects. -/
theorem makeDecision_policy_name (keepT reviewT overall : ℚ) (f : RelevanceFactors) :
    makeDecision keepT reviewT overall f =
      .error (.attributeError
        (if f.factual_consistency < 3/10 ∨ f.semantic_alignment < 2/10 then "REMOVE"
          else if overall ≥ keepT then "KEEP"
          else if overall ≥ reviewT then "REVIEW" else "REMOVE")) := by
  unfold makeDecision
  by_cases h1 : f.factual_consistency < 3/10
  · simp [h1, decisionMember_REMOVE]
  · by_cases h2 : f.semantic_alignment < 2/10
    · simp [h1, h2, decisionMember_REMOVE]
    · by_cases h3 : overall ≥ keepT
      · simp [h1, h2, h3, decisionMember_KEEP]
      · by_cases h4 : overall ≥ reviewT
        · simp [h1, h2, h3, h4, decisionMember_REVIEW]
        · simp [h1, h2, h3, h4, decisionMember_REMOVE]

/-- Helper: _combine_scores raises AttributeError("REMOVE") on every call,
at the first comparison of line 160. -/
theorem combineScores_raises (hw lw : ℚ) (h l : RelevanceScore) :
    combineScores hw lw h l = .error (.attributeError "REMOVE") := rfl

/-- Helper: a correct_conversation call whose first item is below the cap
raises AttributeError("REMOVE") at the decision dispatch, leaving the
manager state untouched. -/
theorem correctGo_cons_raises (cfg : CorrectorConfig) (fuel now : ℕ)
    (sid : String) (llm : ℕ → Except PyErr String) (b : ConversationBlock)
    (score : RelevanceScore) (rest : List (ConversationBlock × RelevanceScore))
    (calls : ℕ) (cancelAt : Option ℕ) (count : ℕ) (acc : List HistoryEntry)
    (m : MgrState) (h : count < cfg.max_corrections_per_cycle) :
    correctGo cfg fuel now sid llm ((b, score) :: rest) calls cancelAt count acc m
      = .raised (.attributeError "REMOVE") m := by
  have hne : ¬ count ≥ cfg.max_corrections_per_cycle := by omega
  simp [correctGo, hne, decisionMember_REMOVE]

/-- Helper: correct_conversation never mutates the manager state: it
either completes having done nothing or raises at its first item. -/
theorem correctGo_state_unchanged (cfg : CorrectorConfig) (fuel now : ℕ)
    (sid : String) (llm : ℕ → Except PyErr String)
    (items : List (ConversationBlock × RelevanceScore)) (calls : ℕ)
    (cancelAt : Option ℕ) (count : ℕ) (acc : List HistoryEntry) (m : MgrState) :
    outcomeMgr (correctGo cfg fuel now sid llm items calls cancelAt count acc m) = m := by
  cases items with
  | nil => rfl
  | cons item rest =>
    obtain ⟨b, score⟩ := item
    by_cases hc : count ≥ cfg.max_corrections_per_cycle
    · simp [correctGo, hc, outcomeMgr]
    · rw [correctGo_cons_raises cfg fuel now sid llm b score rest calls cancelAt
        count acc m (by omega)]
      rfl

/-- Helper: a completed correct_conversation call returns its accumulator
and manager state unchanged. -/
theorem correctGo_completed_acc (cfg : CorrectorConfig) (fuel now : ℕ)
    (sid : String) (llm : ℕ → Except PyErr String)
    (items : List (ConversationBlock × RelevanceScore)) (calls : ℕ)
    (cancelAt : Option ℕ) (count : ℕ) (acc : List HistoryEntry) (m : MgrState)
    (cs : List HistoryEntry) (m1 : MgrState)
    (h : correctGo cfg fuel now sid llm items calls cancelAt count acc m
      = .completed cs m1) : cs = acc ∧ m1 = m := by
  cases items with
  | nil =>
    simp only [correctGo] at h
    injection h with h1 h2
    exact ⟨h1.symm, h2.symm⟩
  | cons item rest =>
    obtain ⟨b, score⟩ := item
    by_cases hc : count ≥ cfg.max_corrections_per_cycle
    · simp only [correctGo, if_pos hc] at h
      injection h with h1 h2
      exact ⟨h1.symm, h2.symm⟩
    · rw [correctGo_cons_raises cfg fuel now sid llm b score rest calls cancelAt
        count acc m (by omega)] at h
      exact absurd h (by simp)

/-- C1 (the code evaluated at the claimed policy): the branch order of
_make_decision matches the spec policy — each branch requests the member
name REMOVE under the factual/semantic overrides, KEEP at or above the
keep threshold, REVIEW at or above the review threshold, and REMOVE
below — but the Decision enum declares none of those members (only
RETAIN, DISCARD, REEVALUATE and COMPRESS evaluate), so every evaluation
raises AttributeError naming the selected member: the evaluator never
produces any decision, let alone the claimed Remove / Review / Keep
outcomes. -/
theorem make_decision_raises_missing_member :
    (∀ keepT reviewT overall f, makeDecision keepT reviewT overall f =
      .error (.attributeError
        (if f.factual_consistency < 3/10 ∨ f.semantic_alignment < 2/10 then "REMOVE"
          else if overall ≥ keepT then "KEEP"
          else if overall ≥ reviewT then "REVIEW" else "REMOVE"))) ∧
    ("REMOVE" ∉ decisionEnumMembers ∧ "KEEP" ∉ decisionEnumMembers ∧
      "REVIEW" ∉ decisionEnumMembers) ∧
    (decisionMember "RETAIN" = .ok .retain ∧
      decisionMember "DISCARD" = .ok .discard ∧
      decisionMember "REEVALUATE" = .ok .reevaluate ∧
      decisionMember "COMPRESS" = .ok .compress) := by
  exact ⟨makeDecision_policy_name, ⟨by decide, by decide, by decide⟩,
    rfl, rfl, rfl, rfl⟩

/-- C10 (the code evaluated at the claimed behaviour): the heuristic
sub-evaluation always raises AttributeError through _make_decision, and
it runs outside the try block, so Composite.evaluate propagates that
error to its caller on every call; _combine_scores raises
AttributeError("REMOVE") on every call, so no conservative merged
decision is ever produced — even handed two already-built sub-scores,
the try swallows the merge failure and falls back to the heuristic-only
score. -/
theorem composite_propagates_attribute_error :
    (∀ keepT reviewT w f, ∃ name, name ∉ decisionEnumMembers ∧
      evaluateBase keepT reviewT w f = .error (.attributeError name)) ∧
    (∀ use_llm hw lw force e llm_call,
      compositeEvaluate use_llm hw lw force (.error e) llm_call = .error e) ∧
    (∀ hw lw h l, combineScores hw lw h l = .error (.attributeError "REMOVE")) ∧
    (∀ hw lw force h l,
      compositeEvaluate true hw lw force (.ok h) (.ok l) = .ok h) := by
  refine ⟨?_, fun _ _ _ _ _ _ => rfl, combineScores_raises, ?_⟩
  · intro keepT reviewT w f
    refine ⟨if f.factual_consistency < 3/10 ∨ f.semantic_alignment < 2/10 then "REMOVE"
      else if overallScore w f ≥ keepT then "KEEP"
      else if overallScore w f ≥ reviewT then "REVIEW" else "REMOVE", ?_, ?_⟩
    · split
      · decide
      · split
        · decide
        · split
          · decide
          · decide
    · unfold evaluateBase
      rw [makeDecision_policy_name]
  · intro hw lw force h l
    unfold compositeEvaluate
    split
    · rename_i a heq
      simp at heq
    · rename_i hc heq
      injection heq with heq2
      subst heq2
      split
      · simp [combineScores_raises]
      · rfl

/-- C5 (the code evaluated at the claimed scenario): correct_conversation
never applies any correction — a completed call returns its accumulator
and manager state unchanged, and a call whose first item is below the
cap raises AttributeError("REMOVE") at the decision dispatch of line 134
before any deletion.  On the scenario of ten stored problematic blocks
with the default limit 3, the call raises at the first item and all ten
blocks remain stored: nothing is deleted, against the claimed
first-three-deleted behaviour (a Remove-decided score is not even
constructible, since the enum has no REMOVE member). -/
theorem correction_cap_never_applies :
    (∀ cfg fuel now sid llm items calls cancelAt count acc m cs m1,
      correctGo cfg fuel now sid llm items calls cancelAt count acc m
        = .completed cs m1 → cs = acc ∧ m1 = m) ∧
    (∀ cfg fuel now sid llm b score rest calls cancelAt count acc m,
      count < cfg.max_corrections_per_cycle →
      correctGo cfg fuel now sid llm ((b, score) :: rest) calls cancelAt count acc m
        = .raised (.attributeError "REMOVE") m) ∧
    c5Run = .raised (.attributeError "REMOVE") c5Mgr ∧
    listKeys none c5Mgr.store =
      ["blk0", "blk1", "blk2", "blk3", "blk4", "blk5", "blk6", "blk7", "blk8", "blk9"] := by
  exact ⟨correctGo_completed_acc, correctGo_cons_raises, by decide, by decide⟩

/-- Witness for C5: the scenario call itself raises at its first item with
the ten-block manager state untouched, via the general statement at the
concrete input. -/
theorem correction_cap_never_applies_witness :
    correctGo defaultCfg 100 0 "s" noLlm [(mkBlock 0, score03)] 0 none 0 [] c5Mgr
      = .raised (.attributeError "REMOVE") c5Mgr :=
  correction_cap_never_applies.2.1 defaultCfg 100 0 "s" noLlm (mkBlock 0) score03
    [] 0 none 0 [] c5Mgr (by decide)

/-- C6 (the code evaluated at the claimed behaviour): the Review repair is
dead code — with a succeeding provider or a failing one alike, the cycle
raises AttributeError("REMOVE") at line 134 before the Review branch is
even tested, so the original block is never deleted, no replacement is
ever stored and no improvement history entry is ever recorded.
Additionally, the metadata kwarg the (dead) replacement constructor
passes is not a field of the new-schema ConversationBlock, so pydantic
would drop the original content and reason silently even if the branch
were reachable. -/
theorem review_repair_dead_code :
    c6Run = .raised (.attributeError "REMOVE") c6Mgr ∧
    c6RunFail = .raised (.attributeError "REMOVE") c6Mgr ∧
    odGet c6Mgr.store.tier_index "blk0" = some .hot ∧
    odGet c6Mgr.store.tier_index "blk0_improved" = none ∧
    runCycleHistory [] c6Run = [] ∧
    ("metadata" ∈ improveBlockKwargs ∧ "metadata" ∉ conversationBlockFields) := by
  exact ⟨by decide, by decide, by decide, by decide, by decide, by decide, by decide⟩

/-- C4 (the code evaluated at the claimed schedule): no correction cycle
ever records a history entry — the history after any correct call equals
the history before it — and the cycle in flight at the moment stop() is
requested aborts by itself at its first item with AttributeError, so no
Review repair is ever executing when shutdown happens and no history
entry exists for stop() to have awaited; stop() itself (lines 65-74)
only cancels the task and swallows the CancelledError rather than
joining in-flight work. -/
theorem inflight_cycle_records_no_history :
    (∀ cfg fuel now sid llm items calls cancelAt m hist,
      runCycleHistory hist
        (correctGo cfg fuel now sid llm items calls cancelAt 0 [] m) = hist) ∧
    c4Run = .raised (.attributeError "REMOVE") c4Mgr ∧
    runCycleHistory [] c4Run = [] := by
  refine ⟨?_, by decide, by decide⟩
  intro cfg fuel now sid llm items calls cancelAt m hist
  cases items with
  | nil => simp [correctGo, runCycleHistory]
  | cons item rest =>
    obtain ⟨b, score⟩ := item
    by_cases hc : (0 : ℕ) ≥ cfg.max_corrections_per_cycle
    · simp [correctGo, hc, runCycleHistory]
    · rw [correctGo_cons_raises cfg fuel now sid llm b score rest calls cancelAt
        0 [] m (by omega)]
      rfl

/-- Helper: a successful ordered-dict lookup is a membership. -/
theorem odGet_mem {α : Type} {l : List (String × α)} {k : String} {v : α}
    (h : odGet l k = some v) : (k, v) ∈ l := by
  unfold odGet at h
  cases hf : l.find? (fun p => p.1 = k) with
  | none => rw [hf] at h; simp at h
  | some p =>
    rw [hf] at h
    simp only [Option.map_some'] at h
    have hmem := List.mem_of_find?_eq_some hf
    have hk : p.1 = k := by simpa using List.find?_some hf
    have hp : p = (k, v) := by
      obtain ⟨a, b⟩ := p
      simp only at hk h
      injection h with h
      rw [hk, h]
    rw [← hp]
    exact hmem

/-- Helper: membership after an ordered-dict put. -/
theorem mem_of_mem_odPutEnd {α : Type} {l : List (String × α)} {k : String}
    {v : α} {p : String × α} (h : p ∈ odPutEnd l k v) : p ∈ l ∨ p = (k, v) := by
  unfold odPutEnd odErase at h
  rcases List.mem_append.mp h with h | h
  · exact Or.inl (List.mem_filter.mp h).1
  · exact Or.inr (by simpa using h)

/-- Helper: membership after an ordered-dict erase. -/
theorem mem_of_mem_odErase {α : Type} {l : List (String × α)} {k : String}
    {p : String × α} (h : p ∈ odErase l k) : p ∈ l :=
  (List.mem_filter.mp h).1

/-- Helper: a cold summary built from an in-range payload is in range
(the missing-score default is 0.5). -/
theorem createSummary_range (d : SerializedBlock)
    (h : scoreInRange d.relevance_score) :
    0 ≤ (createSummary d).relevance_score ∧ (createSummary d).relevance_score ≤ 1 := by
  unfold createSummary
  cases hd : d.relevance_score with
  | none => simp [hd]; norm_num
  | some r =>
    rw [hd] at h
    simp only [scoreInRange] at h
    simpa [hd] using h

/-- Helper: the cold-capacity eviction preserves the range invariant on
every outcome. -/
theorem coldEvictIfFull_range (s : StoreState) (h : blockScoresInRange s) :
    blockScoresInRange (finalStoreState (coldEvictIfFull s)) := by
  unfold coldEvictIfFull
  split
  · split
    · exact h
    · rename_i k0 v0 rest hcold
      refine ⟨h.1, h.2.1, ?_⟩
      intro p hp
      exact h.2.2 p (by rw [hcold]; exact List.mem_cons_of_mem _ hp)
  · exact h

/-- Helper: inserting an in-range summary into Cold preserves the range
invariant on every outcome. -/
theorem storeColdSummary_range (k : String) (v : ColdSummary) (s : StoreState)
    (hs : blockScoresInRange s)
    (hv : 0 ≤ v.relevance_score ∧ v.relevance_score ≤ 1) :
    blockScoresInRange (finalStoreState (storeColdSummary k v s)) := by
  unfold storeColdSummary
  cases hev : coldEvictIfFull s with
  | error es =>
    have h1 := coldEvictIfFull_range s hs
    rw [hev] at h1
    exact h1
  | ok s1 =>
    have h1 := coldEvictIfFull_range s hs
    rw [hev] at h1
    refine ⟨h1.1, h1.2.1, ?_⟩
    intro p hp
    rcases mem_of_mem_odPutEnd hp with hp | hp
    · exact h1.2.2 p hp
    · rw [hp]; exact hv

/-- Helper: the warm-capacity eviction preserves the range invariant on
every outcome. -/
theorem warmEvictIfFull_range (s : StoreState) (hs : blockScoresInRange s) :
    blockScoresInRange (finalStoreState (warmEvictIfFull s)) := by
  unfold warmEvictIfFull
  split
  · split
    · exact hs
    · rename_i k0 d0 rest hwarm
      apply storeColdSummary_range
      · refine ⟨hs.1, ?_, hs.2.2⟩
        intro p hp
        exact hs.2.1 p (by rw [hwarm]; exact List.mem_cons_of_mem _ hp)
      · exact createSummary_range d0
          (hs.2.1 (k0, d0) (by rw [hwarm]; exact List.mem_cons_self _ _))
  · exact hs

/-- Helper: _store_warm preserves the range invariant on every outcome
(it never inserts: serialization raises first). -/
theorem storeWarm_range (k : String) (b : ConversationBlock) (s : StoreState)
    (hs : blockScoresInRange s) :
    blockScoresInRange (finalStoreState (storeWarm k b s)) := by
  unfold storeWarm
  cases hev : warmEvictIfFull s with
  | error es =>
    have h1 := warmEvictIfFull_range s hs
    rw [hev] at h1
    exact h1
  | ok s1 =>
    have h1 := warmEvictIfFull_range s hs
    rw [hev] at h1
    rw [serializeBlock_raises]
    exact h1

/-- Helper: _store_hot preserves the range invariant on every outcome,
given the incoming block is in range. -/
theorem storeHot_range (k : String) (b : ConversationBlock) (s : StoreState)
    (hs : blockScoresInRange s) (hb : scoreInRange b.relevance_score) :
    blockScoresInRange (finalStoreState (storeHot k b s)) := by
  unfold storeHot
  split
  · split
    · exact hs
    · rename_i k0 v0 rest hhot
      have hs1 : blockScoresInRange { s with hot := rest } := by
        refine ⟨?_, hs.2.1, hs.2.2⟩
        intro p hp
        exact hs.1 p (by rw [hhot]; exact List.mem_cons_of_mem _ hp)
      cases hsw : storeWarm k0 v0 { s with hot := rest } with
      | error es =>
        have h1 := storeWarm_range k0 v0 _ hs1
        rw [hsw] at h1
        exact h1
      | ok s2 =>
        have h1 := storeWarm_range k0 v0 _ hs1
        rw [hsw] at h1
        refine ⟨?_, h1.2.1, h1.2.2⟩
        intro p hp
        rcases mem_of_mem_odPutEnd hp with hp | hp
        · exact h1.1 p hp
        · rw [hp]; exact hb
  · refine ⟨?_, hs.2.1, hs.2.2⟩
    intro p hp
    rcases mem_of_mem_odPutEnd hp with hp | hp
    · exact hs.1 p hp
    · rw [hp]; exact hb

/-- Helper: _store_cold on a block preserves the range invariant on every
outcome (it never inserts: serialization raises first). -/
theorem storeColdBlock_range (k : String) (b : ConversationBlock) (s : StoreState)
    (hs : blockScoresInRange s) :
    blockScoresInRange (finalStoreState (storeColdBlock k b s)) := by
  unfold storeColdBlock
  cases hev : coldEvictIfFull s with
  | error es =>
    have h1 := coldEvictIfFull_range s hs
    rw [hev] at h1
    exact h1
  | ok s1 =>
    have h1 := coldEvictIfFull_range s hs
    rw [hev] at h1
    rw [serializeBlock_raises]
    exact h1

/-- Helper: store preserves the range invariant on every outcome, given
the incoming block is in range. -/
theorem store_range (k : String) (b : ConversationBlock) (tier : StorageTier)
    (sid : String) (s : StoreState) (hs : blockScoresInRange s)
    (hb : scoreInRange b.relevance_score) :
    blockScoresInRange (finalStoreState (store k b tier sid s)) := by
  cases tier with
  | hot =>
    simp only [store]
    cases hst : storeHot k b s with
    | error es =>
      have h1 := storeHot_range k b s hs hb
      rw [hst] at h1
      exact h1
    | ok s1 =>
      have h1 := storeHot_range k b s hs hb
      rw [hst] at h1
      exact h1
  | warm =>
    simp only [store]
    cases hst : storeWarm k b s with
    | error es =>
      have h1 := storeWarm_range k b s hs
      rw [hst] at h1
      exact h1
    | ok s1 =>
      have h1 := storeWarm_range k b s hs
      rw [hst] at h1
      exact h1
  | cold =>
    simp only [store]
    cases hst : storeColdBlock k b s with
    | error es =>
      have h1 := storeColdBlock_range k b s hs
      rw [hst] at h1
      exact h1
    | ok s1 =>
      have h1 := storeColdBlock_range k b s hs
      rw [hst] at h1
      exact h1

/-- Helper: retrieve preserves the range invariant on every outcome, and
any block it returns carries an in-range score. -/
theorem retrieve_range (now : ℕ) (k : String) (s : StoreState)
    (hs : blockScoresInRange s) :
    blockScoresInRange (retrieveFinal (retrieve now k s)) ∧
    (∀ b s1, retrieve now k s = .ok (some b, s1) → scoreInRange b.relevance_score) := by
  unfold retrieve
  cases hti : odGet s.tier_index k with
  | none => exact ⟨hs, by intro b s1 h; simp at h⟩
  | some t =>
    cases t with
    | hot =>
      cases hb : odGet s.hot k with
      | none => exact ⟨hs, by intro b s1 h; simp at h⟩
      | some b0 =>
        have hb0 : scoreInRange b0.relevance_score := hs.1 (k, b0) (odGet_mem hb)
        constructor
        · refine ⟨?_, hs.2.1, hs.2.2⟩
          intro p hp
          rcases mem_of_mem_odPutEnd hp with hp | hp
          · exact hs.1 p hp
          · rw [hp]; exact hb0
        · intro b s1 h
          simp only [Except.ok.injEq, Prod.mk.injEq, Option.some.injEq] at h
          rw [← h.1]
          exact hb0
    | warm =>
      cases hw : odGet s.warm k with
      | none => exact ⟨hs, by intro b s1 h; simp at h⟩
      | some d =>
        obtain ⟨e, he⟩ := deserializeBlock_raises d
        simp only [he]
        exact ⟨hs, by intro b s1 h; simp at h⟩
    | cold =>
      cases hc : odGet s.cold k with
      | none => exact ⟨hs, by intro b s1 h; simp at h⟩
      | some _ => exact ⟨hs, by intro b s1 h; simp at h⟩

/-- Helper: delete preserves the range invariant. -/
theorem delete_range (k sid : String) (s : StoreState)
    (hs : blockScoresInRange s) :
    blockScoresInRange (delete k sid s).2 := by
  unfold delete
  cases hti : odGet s.tier_index k with
  | none => exact hs
  | some t =>
    cases t with
    | hot => exact ⟨fun p hp => hs.1 p (mem_of_mem_odErase hp), hs.2.1, hs.2.2⟩
    | warm => exact ⟨hs.1, fun p hp => hs.2.1 p (mem_of_mem_odErase hp), hs.2.2⟩
    | cold => exact ⟨hs.1, hs.2.1, fun p hp => hs.2.2 p (mem_of_mem_odErase hp)⟩

/-- C7: block creation at ingestion assigns the in-range scores 1.0 (user)
and 0.9 (assistant); every store, retrieve and delete outcome — returned
or raised — keeps all held relevance scores undefined-or-in-[0,1], and
any block retrieve returns carries an in-range score; evaluation never
constructs a relevance score at all; and the correction cycle never
mutates the manager state — the written 1.5x repair boost is dead code —
so no operation produces a block whose relevance_score exceeds 1. -/
theorem relevance_scores_stay_in_range :
    (scoreInRange ingestionUserScore ∧ scoreInRange ingestionAssistantScore) ∧
    (∀ k b tier sid s, blockScoresInRange s → scoreInRange b.relevance_score →
      blockScoresInRange (finalStoreState (store k b tier sid s))) ∧
    (∀ now k s, blockScoresInRange s →
      blockScoresInRange (retrieveFinal (retrieve now k s)) ∧
      ∀ b s1, retrieve now k s = .ok (some b, s1) → scoreInRange b.relevance_score) ∧
    (∀ k sid s, blockScoresInRange s → blockScoresInRange (delete k sid s).2) ∧
    (∀ keepT reviewT w f, ∃ e, evaluateBase keepT reviewT w f = .error e) ∧
    (∀ cfg fuel now sid llm items calls cancelAt count acc m,
      outcomeMgr (correctGo cfg fuel now sid llm items calls cancelAt count acc m)
        = m) := by
  refine ⟨⟨by simp [ingestionUserScore, scoreInRange],
      by simp [ingestionAssistantScore, scoreInRange]; norm_num⟩,
    store_range, retrieve_range, delete_range, ?_, correctGo_state_unchanged⟩
  intro keepT reviewT w f
  refine ⟨.attributeError
      (if f.factual_consistency < 3/10 ∨ f.semantic_alignment < 2/10 then "REMOVE"
        else if overallScore w f ≥ keepT then "KEEP"
        else if overallScore w f ≥ reviewT then "REVIEW" else "REMOVE"), ?_⟩
  unfold evaluateBase
  rw [makeDecision_policy_name]

/-- Witness for C7: storing a fresh unevaluated block into an empty store
keeps every held score in range, via the preservation statement at a
concrete input. -/
theorem relevance_scores_stay_in_range_witness :
    blockScoresInRange (finalStoreState
      (store "blk0" (mkBlock 0) .hot "s" (emptyStore 100 500 2000))) :=
  relevance_scores_stay_in_range.2.1 "blk0" (mkBlock 0) .hot "s"
    (emptyStore 100 500 2000)
    (by simp [blockScoresInRange, emptyStore])
    (by simp [mkBlock, scoreInRange])

end ConcreteRuns

end MemoryAgent
